import Mathlib

/-!
Shallow embedding of `src/chrome_screen/webdriver.py`
(`ChromeScreenshot`, a full-page-screenshot wrapper around the Chrome
webdriver) and proofs about it.

The embedding models:
* the rect tiler `__iter_rects` (two nested clamp-and-shift `while`
  loops), transcribed as a fuel-indexed loop `spansFuel` so that the
  possible non-termination of the Python loops is observable, plus the
  terminating list `spans`/`iter_rects` used by the rest of the pipeline;
* the scrollbar hide/restore scripts (`__scrollbars_hide`,
  `__scrollbars_restore`) over a DOM state that records whether the
  `chrome_screenshot_fix` style element is present;
* Python's `base64.b64decode` on byte strings (lenient mode: characters
  outside the alphabet are discarded before decoding);
* the capture-and-composite pipeline `__screenshot_png` and the public
  entry points `get_screenshot_as_base64`, `get_screenshot_as_file`,
  `get_screenshot_as_png` and `prepare_page`, with the external driver
  (tile data) and the external image library (PNG encode/decode)
  supplied as parameters, exactly at their call boundary.
-/

deriving instance DecidableEq for Except

namespace ChromeScreen

/-- A capture window in document coordinates, the 4-tuple
`(left, top, right, bottom)` yielded by `__iter_rects`. -/
structure Rect where
  left : Int
  top : Int
  right : Int
  bottom : Int
  deriving DecidableEq, Repr

/-- One clamp-and-shift `while` loop of `__iter_rects`, fuel-indexed.
`size` is the document extent, `step` the viewport extent, `pos` the
loop variable (`top` resp. `left`).  Each constructor of the list is one
iteration of the Python loop:

    while pos < size:
        stop = pos + step
        if stop > size:
            stop = size
            pos = stop - step
        yield (pos, stop)
        pos += step

`none` means the loop did not finish within `fuel` iterations. -/
def spansFuel (size step : Int) : Nat → Int → Option (List (Int × Int))
  | 0, _ => none
  | fuel + 1, pos =>
    if pos < size then
      let stop := pos + step
      if stop > size then
        match spansFuel size step fuel ((size - step) + step) with
        | some rest => some ((size - step, size) :: rest)
        | none => none
      else
        match spansFuel size step fuel (pos + step) with
        | some rest => some ((pos, stop) :: rest)
        | none => none
    else
      some []

/-- The sequence produced by one clamp-and-shift loop, run with enough
fuel to cover every terminating case (the loop variable strictly
increases by at least `1` per iteration whenever `0 < step`). -/
def spans (size step : Int) : List (Int × Int) :=
  (spansFuel size step (size.toNat + 1) 0).getD []

/-- `__iter_rects(dimensions=(docW, docH))`: the outer loop runs over
vertical spans of the document, the inner loop over horizontal spans,
and `(left, top, right, bottom)` is yielded for every combination, in
raster order.  The inner loop does not depend on the outer loop
variable, so the nest is the product of the two span sequences. -/
def iter_rects (docW docH vpW vpH : Int) : List Rect :=
  (spans docH vpH).flatMap fun tb =>
    (spans docW vpW).map fun lr =>
      { left := lr.1, top := tb.1, right := lr.2, bottom := tb.2 }

example : spans 1300 600 = [(0, 600), (600, 1200), (700, 1300)] := by decide
example : spans 1000 800 = [(0, 800), (200, 1000)] := by decide
example : iter_rects 4 3 8 6 = [⟨-4, -3, 4, 3⟩] := by decide
example : iter_rects 800 600 800 600 = [⟨0, 0, 800, 600⟩] := by decide

/-- Errors that a capture can abort with:
* `jsError` — the restore script evaluated
  `document.body.removeChild(null)` because the style element was
  absent, so the driver raised a script exception;
* `b64Error` — Python's `base64.b64decode` raised `binascii.Error`;
* `imgError` — the image library could not decode a blob
  (`wand.image.Image(blob=...)` raised). -/
inductive Err where
  | jsError
  | b64Error
  | imgError
  deriving DecidableEq, Repr

/-- The observable state outside the Python call stack: whether the
`chrome_screenshot_fix` style element is currently attached to the
document body, the scroll positions requested so far
(`window.scrollTo(x, y)` calls, in order), and the files written so
far. -/
structure World where
  fixSheet : Bool
  scrolls : List (Int × Int)
  files : List String
  deriving DecidableEq, Repr

/-- `__scrollbars_hide`: appends the `<style id='chrome_screenshot_fix'>`
element to the document body. -/
def scrollbars_hide (w : World) : World :=
  { w with fixSheet := true }

/-- `__scrollbars_restore`: runs
`document.body.removeChild(document.getElementById('chrome_screenshot_fix'))`.
When the element is present it is removed; when it is absent
`getElementById` returns `null` and `removeChild(null)` throws, which
the driver surfaces as a script error. -/
def scrollbars_restore (w : World) : Except Err World :=
  if w.fixSheet then
    Except.ok { w with fixSheet := false }
  else
    Except.error Err.jsError

/-- Value of one base64 alphabet character (byte), `none` for a byte
outside the alphabet. -/
def b64Val (c : Nat) : Option Nat :=
  if 65 ≤ c ∧ c ≤ 90 then some (c - 65)
  else if 97 ≤ c ∧ c ≤ 122 then some (c - 97 + 26)
  else if 48 ≤ c ∧ c ≤ 57 then some (c - 48 + 52)
  else if c = 43 then some 62
  else if c = 47 then some 63
  else none

/-- A byte kept by Python's lenient `b64decode`: an alphabet character
or the padding character `=` (61 is a decimal byte here, `0x3d`). -/
def b64Kept (c : Nat) : Bool :=
  (b64Val c).isSome || c == 61

/-- Decode a base64 string already filtered down to alphabet and padding
bytes, four characters at a time; a final group may carry one or two
padding characters.  Any other shape raises `binascii.Error`. -/
def b64Quads : List Nat → Except Err (List Nat)
  | [] => Except.ok []
  | a :: b :: c :: d :: rest =>
    match b64Val a, b64Val b with
    | some va, some vb =>
      if c = 61 then
        if d = 61 ∧ rest = [] then Except.ok [va * 4 + vb / 16]
        else Except.error Err.b64Error
      else
        match b64Val c with
        | some vc =>
          if d = 61 then
            if rest = [] then
              Except.ok [va * 4 + vb / 16, (vb % 16) * 16 + vc / 4]
            else Except.error Err.b64Error
          else
            match b64Val d with
            | some vd =>
              match b64Quads rest with
              | Except.ok tail =>
                Except.ok ([va * 4 + vb / 16, (vb % 16) * 16 + vc / 4,
                            (vc % 4) * 64 + vd] ++ tail)
              | Except.error e => Except.error e
            | none => Except.error Err.b64Error
        | none => Except.error Err.b64Error
    | _, _ => Except.error Err.b64Error
  | _ => Except.error Err.b64Error

/-- Python `base64.b64decode(data)` in its default lenient mode: bytes
that are neither alphabet nor padding are discarded, then the remainder
must consist of whole four-character groups. -/
def pyB64Decode (bs : List Nat) : Except Err (List Nat) :=
  b64Quads (bs.filter b64Kept)

example : pyB64Decode [65, 65, 65, 65] = Except.ok [0, 0, 0] := by decide
example : pyB64Decode [65, 65, 65, 61] = Except.ok [0, 0] := by decide
example : pyB64Decode [0, 0, 0] = Except.ok [] := by decide

/-- A decoded raster image as the image library reports it: only its
pixel dimensions are observable in this development. -/
structure Img where
  width : Int
  height : Int
  deriving DecidableEq, Repr

/-- The mutable output canvas: its allocation size and the list of
composite operations applied to it, each an image with the
`left`/`top` placement passed to `wand`'s `composite`. -/
structure CanvasState where
  width : Int
  height : Int
  composites : List (Img × Int × Int)
  deriving DecidableEq, Repr

/-- The external collaborators of one capture, fixed for its duration:
the geometry read through the driver (document and viewport extents)
and `shoot rect`, the base64 string (as bytes) the driver's native
viewport screenshot returns after scrolling to `rect`. -/
structure Browser where
  docW : Int
  docH : Int
  vpW : Int
  vpH : Int
  shoot : Rect → List Nat

/-- The image library's blob decoder, `wand.image.Image(blob=...)`:
`none` models a decode exception. -/
def ImgDecoder := List Nat → Option Img

/-- The image library's PNG encoder, `screenshot.make_blob(format='png')`. -/
def ImgEncoder := CanvasState → List Nat

/-- The consumption of `__iter_screenshots` inside `__screenshot_png`:
for each rect in turn, scroll to its origin, capture the tile
(`shoot`), decode the base64 payload, decode the blob, and composite
the image at `(left*2, top*2)`.  The first failing tile aborts the
loop; tiles past it are never captured (the Python generator is lazy). -/
def composite_tiles (b : Browser) (dec : ImgDecoder) :
    List Rect → CanvasState → World → Except Err CanvasState × World
  | [], canvas, w => (Except.ok canvas, w)
  | rect :: rest, canvas, w =>
    let w1 := { w with scrolls := w.scrolls ++ [(rect.left, rect.top)] }
    match pyB64Decode (b.shoot rect) with
    | Except.error _ => (Except.error Err.b64Error, w1)
    | Except.ok blob =>
      match dec blob with
      | none => (Except.error Err.imgError, w1)
      | some img =>
        composite_tiles b dec rest
          { canvas with
            composites := canvas.composites ++ [(img, rect.left * 2, rect.top * 2)] }
          w1

/-- `__screenshot_png(func)`: hide the scrollbars, read the document
extents, allocate a canvas of twice the document size, composite every
tile onto it, hand the canvas to `func`, and only then restore the
scrollbars.  An exception anywhere inside the `with` block propagates
without running the restore script (there is no `try/finally`), so the
final `World` is returned alongside the outcome. -/
def screenshot_png (b : Browser) (dec : ImgDecoder)
    (func : CanvasState → World → Except Err α × World) (w : World) :
    Except Err α × World :=
  let w1 := scrollbars_hide w
  let canvas0 : CanvasState := { width := b.docW * 2, height := b.docH * 2, composites := [] }
  match composite_tiles b dec (iter_rects b.docW b.docH b.vpW b.vpH) canvas0 w1 with
  | (Except.error e, w2) => (Except.error e, w2)
  | (Except.ok canvas, w2) =>
    match func canvas w2 with
    | (Except.error e, w3) => (Except.error e, w3)
    | (Except.ok ret, w3) =>
      match scrollbars_restore w3 with
      | Except.error e => (Except.error e, w3)
      | Except.ok w4 => (Except.ok ret, w4)

/-- `get_screenshot_as_base64`: the terminal `func` is
`base64.b64decode(screenshot.make_blob(format='png'))`. -/
def get_screenshot_as_base64 (b : Browser) (dec : ImgDecoder) (enc : ImgEncoder)
    (w : World) : Except Err (List Nat) × World :=
  screenshot_png b dec
    (fun canvas w' =>
      match pyB64Decode (enc canvas) with
      | Except.ok s => (Except.ok s, w')
      | Except.error e => (Except.error e, w'))
    w

/-- `get_screenshot_as_file(filename)`: the terminal `func` saves the
canvas to `filename` and returns `True`. -/
def get_screenshot_as_file (b : Browser) (dec : ImgDecoder) (filename : String)
    (w : World) : Except Err Bool × World :=
  screenshot_png b dec
    (fun _ w' => (Except.ok true, { w' with files := w'.files ++ [filename] }))
    w

/-- `get_screenshot_as_png`: the terminal `func` is
`screenshot.make_blob(format='png')`. -/
def get_screenshot_as_png (b : Browser) (dec : ImgDecoder) (enc : ImgEncoder)
    (w : World) : Except Err (List Nat) × World :=
  screenshot_png b dec (fun canvas w' => (Except.ok (enc canvas), w')) w

/-- The loop body of `prepare_page`: for each rect, scroll to its origin
while `count < max`, and increment `count` for every rect regardless. -/
def prepare_page_loop (max : Int) :
    List Rect → World → Int → World × Int
  | [], w, count => (w, count)
  | rect :: rest, w, count =>
    let w1 :=
      if count < max then
        { w with scrolls := w.scrolls ++ [(rect.left, rect.top)] }
      else w
    prepare_page_loop max rest w1 (count + 1)

/-- `prepare_page(max=100)`: scroll through the whole page without
taking screenshots, limited to `max` scroll operations but iterating
(and counting) every rect. -/
def prepare_page (b : Browser) (max : Int) (w : World) : World :=
  (prepare_page_loop max (iter_rects b.docW b.docH b.vpW b.vpH) w 0).1

/-- Did a call return normally? -/
def isOk : Except Err α → Bool
  | Except.ok _ => true
  | Except.error _ => false

/-- The decoded image of the tile captured at `rect`, `none` when either
the base64 payload or the blob fails to decode. -/
def tileImg (b : Browser) (dec : ImgDecoder) (rect : Rect) : Option Img :=
  match pyB64Decode (b.shoot rect) with
  | Except.error _ => none
  | Except.ok blob => dec blob

/-! ### Concrete external collaborators used in witnesses

These instantiate the driver and image-library parameters at the
interface boundary of section 6 of the spec (the collaborators are
outside this repository). -/

/-- Sign-interleaving encoding of an integer as a natural number. -/
def intEnc (x : Int) : Nat :=
  if 0 ≤ x then 2 * x.toNat else 2 * (-x).toNat - 1

/-- Inverse of `intEnc`. -/
def intDec (n : Nat) : Int :=
  if n % 2 = 0 then ((n / 2 : Nat) : Int) else -(((n / 2 : Nat) : Int) + 1)

/-- A concrete PNG encoder: the blob of a canvas records exactly its
dimensions. -/
def dimEnc : ImgEncoder := fun c => [intEnc c.width, intEnc c.height]

/-- A concrete blob decoder: a two-byte blob decodes to the image with
those (sign-decoded) dimensions; any other blob fails to decode. -/
def dimDec : ImgDecoder := fun bs =>
  match bs with
  | [x, y] => some { width := intDec x, height := intDec y }
  | _ => none

/-- A 1×1 document in a 1×1 viewport whose driver returns the base64
payload `AAA=` (which decodes to the two-byte blob `[0, 0]`) for every
tile. -/
def tinyBrowser : Browser :=
  { docW := 1, docH := 1, vpW := 1, vpH := 1, shoot := fun _ => [65, 65, 65, 61] }

/-- Same geometry, but the driver payload is `AAAA`, whose three-byte
blob `[0, 0, 0]` fails to decode under `dimDec`. -/
def badTileBrowser : Browser :=
  { docW := 1, docH := 1, vpW := 1, vpH := 1, shoot := fun _ => [65, 65, 65, 65] }

/-- A 10×13 document in an 8×6 viewport: six tiles in raster order.
The payload of the third tile (left 0, top 6) is a single NUL byte, so
its blob is empty and fails to decode; every other tile is `AAA=`. -/
def sixTileBrowser : Browser :=
  { docW := 10, docH := 13, vpW := 8, vpH := 6,
    shoot := fun r => if r.left = 0 ∧ r.top = 6 then [0] else [65, 65, 65, 61] }

/-- An 8×30 document in an 8×6 viewport: five tiles in one column. -/
def fiveRectBrowser : Browser :=
  { docW := 8, docH := 30, vpW := 8, vpH := 6, shoot := fun _ => [65, 65, 65, 61] }

/-- The initial world: no override attached, no scrolls, no files. -/
def world0 : World := { fixSheet := false, scrolls := [], files := [] }

/-! ### Helper lemmas about the clamp-and-shift loop -/

theorem spansFuel_mono (size step : Int) :
    ∀ (f1 : Nat) (pos : Int) (l : List (Int × Int)) (f2 : Nat),
      spansFuel size step f1 pos = some l → f1 ≤ f2 →
      spansFuel size step f2 pos = some l := by
  intro f1
  induction f1 with
  | zero => intro pos l f2 h _; simp [spansFuel] at h
  | succ n ih =>
    intro pos l f2 h hle
    obtain ⟨m, rfl⟩ : ∃ m, f2 = m + 1 := ⟨f2 - 1, by omega⟩
    rw [spansFuel] at h ⊢
    by_cases hp : pos < size
    · simp only [if_pos hp] at h ⊢
      by_cases hs : pos + step > size
      · simp only [if_pos hs] at h ⊢
        cases hrec : spansFuel size step n ((size - step) + step) with
        | none => rw [hrec] at h; exact absurd h (by simp)
        | some rest =>
          rw [hrec] at h
          rw [ih _ _ _ hrec (by omega)]
          exact h
      · simp only [if_neg hs] at h ⊢
        cases hrec : spansFuel size step n (pos + step) with
        | none => rw [hrec] at h; exact absurd h (by simp)
        | some rest =>
          rw [hrec] at h
          rw [ih _ _ _ hrec (by omega)]
          exact h
    · simp only [if_neg hp] at h ⊢
      exact h

theorem spansFuel_isSome (size step : Int) (hstep : 0 < step) :
    ∀ (fuel : Nat) (pos : Int), (size - pos).toNat < fuel →
      (spansFuel size step fuel pos).isSome := by
  intro fuel
  induction fuel with
  | zero => intro pos h; omega
  | succ n ih =>
    intro pos h
    rw [spansFuel]
    by_cases hp : pos < size
    · simp only [if_pos hp]
      by_cases hs : pos + step > size
      · simp only [if_pos hs]
        have hrec := ih ((size - step) + step) (by omega)
        cases hres : spansFuel size step n ((size - step) + step) with
        | none => rw [hres] at hrec; simp at hrec
        | some rest => simp
      · simp only [if_neg hs]
        have hrec := ih (pos + step) (by omega)
        cases hres : spansFuel size step n (pos + step) with
        | none => rw [hres] at hrec; simp at hrec
        | some rest => simp
    · simp only [if_neg hp]
      simp

theorem spansFuel_eq_spans (size step : Int) (hstep : 0 < step)
    (fuel : Nat) (hfuel : size.toNat < fuel) :
    spansFuel size step fuel 0 = some (spans size step) := by
  have h1 : (size - 0).toNat < size.toNat + 1 := by omega
  have h2 := spansFuel_isSome size step hstep (size.toNat + 1) 0 h1
  cases hres : spansFuel size step (size.toNat + 1) 0 with
  | none => rw [hres] at h2; simp at h2
  | some l =>
    have hspans : spans size step = l := by simp [spans, hres]
    rw [hspans]
    exact spansFuel_mono size step _ _ _ _ hres (by omega)

theorem spansFuel_width (size step : Int) :
    ∀ (fuel : Nat) (pos : Int) (l : List (Int × Int)),
      spansFuel size step fuel pos = some l →
      ∀ ab ∈ l, ab.2 - ab.1 = step := by
  intro fuel
  induction fuel with
  | zero => intro pos l h; simp [spansFuel] at h
  | succ n ih =>
    intro pos l h
    rw [spansFuel] at h
    by_cases hp : pos < size
    · simp only [if_pos hp] at h
      by_cases hs : pos + step > size
      · simp only [if_pos hs] at h
        cases hrec : spansFuel size step n ((size - step) + step) with
        | none => rw [hrec] at h; exact absurd h (by simp)
        | some rest =>
          rw [hrec] at h
          obtain rfl : (size - step, size) :: rest = l := by
            simpa using h
          intro ab hab
          rcases List.mem_cons.mp hab with h1 | h2
          · subst h1; simp
          · exact ih _ _ hrec ab h2
      · simp only [if_neg hs] at h
        cases hrec : spansFuel size step n (pos + step) with
        | none => rw [hrec] at h; exact absurd h (by simp)
        | some rest =>
          rw [hrec] at h
          obtain rfl : (pos, pos + step) :: rest = l := by
            simpa using h
          intro ab hab
          rcases List.mem_cons.mp hab with h1 | h2
          · subst h1; simp
          · exact ih _ _ hrec ab h2
    · simp only [if_neg hp] at h
      obtain rfl : ([] : List (Int × Int)) = l := by simpa using h
      intro ab hab
      simp at hab

theorem spans_width (size step : Int) (hstep : 0 < step) :
    ∀ ab ∈ spans size step, ab.2 - ab.1 = step := by
  have h := spansFuel_eq_spans size step hstep (size.toNat + 1) (by omega)
  exact spansFuel_width size step (size.toNat + 1) 0 (spans size step) h

theorem spansFuel_cover (size step : Int) :
    ∀ (fuel : Nat) (pos : Int) (l : List (Int × Int)),
      spansFuel size step fuel pos = some l →
      ∀ v : Int, pos ≤ v → v < size → ∃ ab ∈ l, ab.1 ≤ v ∧ v < ab.2 := by
  intro fuel
  induction fuel with
  | zero => intro pos l h; simp [spansFuel] at h
  | succ n ih =>
    intro pos l h v hpv hvs
    rw [spansFuel] at h
    have hp : pos < size := lt_of_le_of_lt hpv hvs
    simp only [if_pos hp] at h
    by_cases hs : pos + step > size
    · simp only [if_pos hs] at h
      cases hrec : spansFuel size step n ((size - step) + step) with
      | none => rw [hrec] at h; exact absurd h (by simp)
      | some rest =>
        rw [hrec] at h
        obtain rfl : (size - step, size) :: rest = l := by simpa using h
        exact ⟨(size - step, size), by simp, by constructor <;> omega⟩
    · simp only [if_neg hs] at h
      cases hrec : spansFuel size step n (pos + step) with
      | none => rw [hrec] at h; exact absurd h (by simp)
      | some rest =>
        rw [hrec] at h
        obtain rfl : (pos, pos + step) :: rest = l := by simpa using h
        by_cases hv : v < pos + step
        · exact ⟨(pos, pos + step), by simp, by constructor <;> omega⟩
        · obtain ⟨ab, hmem, hab⟩ := ih (pos + step) rest hrec v (by omega) hvs
          exact ⟨ab, List.mem_cons_of_mem _ hmem, hab⟩

theorem spans_cover (size step : Int) (hstep : 0 < step) :
    ∀ v : Int, 0 ≤ v → v < size → ∃ ab ∈ spans size step, ab.1 ≤ v ∧ v < ab.2 := by
  have h := spansFuel_eq_spans size step hstep (size.toNat + 1) (by omega)
  exact spansFuel_cover size step (size.toNat + 1) 0 (spans size step) h

theorem spansFuel_zero_step (size : Int) :
    ∀ (fuel : Nat) (pos : Int), pos < size → spansFuel size 0 fuel pos = none := by
  intro fuel
  induction fuel with
  | zero => intro pos _; rfl
  | succ n ih =>
    intro pos hp
    rw [spansFuel]
    simp only [if_pos hp]
    have hs : ¬ pos + 0 > size := by omega
    simp only [if_neg hs]
    rw [ih (pos + 0) (by omega)]

theorem spans_single (size step : Int) (h0 : 0 < size) (hle : size ≤ step) :
    spans size step = [(size - step, size)] := by
  obtain ⟨n, hn⟩ : ∃ n : Nat, size.toNat + 1 = n + 2 := ⟨size.toNat - 1, by omega⟩
  unfold spans
  rw [hn, spansFuel]
  simp only [if_pos h0]
  by_cases hs : (0 : Int) + step > size
  · simp only [if_pos hs]
    rw [spansFuel]
    have : ¬ (size - step) + step < size := by omega
    simp only [if_neg this]
    rfl
  · have hstep : step = size := by omega
    simp only [if_neg hs]
    rw [spansFuel]
    have : ¬ (0 : Int) + step < size := by omega
    simp only [if_neg this]
    subst hstep
    simp

theorem mem_iter_rects (docW docH vpW vpH : Int) (r : Rect) :
    r ∈ iter_rects docW docH vpW vpH ↔
      ∃ tb ∈ spans docH vpH, ∃ lr ∈ spans docW vpW,
        r = { left := lr.1, top := tb.1, right := lr.2, bottom := tb.2 } := by
  simp only [iter_rects, List.mem_flatMap, List.mem_map]
  constructor
  · rintro ⟨tb, htb, lr, hlr, rfl⟩
    exact ⟨tb, htb, lr, hlr, rfl⟩
  · rintro ⟨tb, htb, lr, hlr, rfl⟩
    exact ⟨tb, htb, lr, hlr, rfl⟩

theorem intDec_intEnc (x : Int) : intDec (intEnc x) = x := by
  unfold intEnc intDec
  by_cases h : 0 ≤ x
  · simp only [if_pos h]
    have h2 : 2 * x.toNat % 2 = 0 := by omega
    simp only [if_pos h2]
    omega
  · simp only [if_neg h]
    have h2 : ¬ (2 * (-x).toNat - 1) % 2 = 0 := by omega
    simp only [if_neg h2]
    omega

/-! ### Helper lemmas about the capture pipeline -/

theorem composite_tiles_fixSheet (b : Browser) (dec : ImgDecoder) :
    ∀ (rects : List Rect) (canvas : CanvasState) (w : World),
      (composite_tiles b dec rects canvas w).2.fixSheet = w.fixSheet := by
  intro rects
  induction rects with
  | nil => intro canvas w; rfl
  | cons rect rest ih =>
    intro canvas w
    rw [composite_tiles]
    cases h64 : pyB64Decode (b.shoot rect) with
    | error e => simp [h64]
    | ok blob =>
      simp only [h64]
      cases hdec : dec blob with
      | none => simp [hdec]
      | some img => simp only [hdec]; exact ih _ _

theorem composite_tiles_files (b : Browser) (dec : ImgDecoder) :
    ∀ (rects : List Rect) (canvas : CanvasState) (w : World),
      (composite_tiles b dec rects canvas w).2.files = w.files := by
  intro rects
  induction rects with
  | nil => intro canvas w; rfl
  | cons rect rest ih =>
    intro canvas w
    rw [composite_tiles]
    cases h64 : pyB64Decode (b.shoot rect) with
    | error e => simp [h64]
    | ok blob =>
      simp only [h64]
      cases hdec : dec blob with
      | none => simp [hdec]
      | some img => simp only [hdec]; exact ih _ _

theorem composite_tiles_dims (b : Browser) (dec : ImgDecoder) :
    ∀ (rects : List Rect) (canvas : CanvasState) (w : World)
      (canvas' : CanvasState) (w' : World),
      composite_tiles b dec rects canvas w = (Except.ok canvas', w') →
      canvas'.width = canvas.width ∧ canvas'.height = canvas.height := by
  intro rects
  induction rects with
  | nil =>
    intro canvas w canvas' w' h
    rw [composite_tiles] at h
    simp only [Prod.mk.injEq, Except.ok.injEq] at h
    obtain ⟨rfl, rfl⟩ := h
    exact ⟨rfl, rfl⟩
  | cons rect rest ih =>
    intro canvas w canvas' w' h
    rw [composite_tiles] at h
    cases h64 : pyB64Decode (b.shoot rect) with
    | error e => simp [h64] at h
    | ok blob =>
      simp only [h64] at h
      cases hdec : dec blob with
      | none => simp [hdec] at h
      | some img =>
        simp only [hdec] at h
        simpa using ih _ _ _ _ h

theorem composite_tiles_fail (b : Browser) (dec : ImgDecoder) :
    ∀ (rects : List Rect) (canvas : CanvasState) (w : World),
      (∃ r ∈ rects, tileImg b dec r = none) →
      ∃ e w', composite_tiles b dec rects canvas w = (Except.error e, w') ∧
        w'.files = w.files := by
  intro rects
  induction rects with
  | nil => intro canvas w h; simp at h
  | cons rect rest ih =>
    intro canvas w hfail
    rw [composite_tiles]
    cases h64 : pyB64Decode (b.shoot rect) with
    | error e =>
      exact ⟨Err.b64Error, { w with scrolls := w.scrolls ++ [(rect.left, rect.top)] },
        by simp [h64], rfl⟩
    | ok blob =>
      cases hdec : dec blob with
      | none =>
        exact ⟨Err.imgError, { w with scrolls := w.scrolls ++ [(rect.left, rect.top)] },
          by simp [h64, hdec], rfl⟩
      | some img =>
        have hrest : ∃ r ∈ rest, tileImg b dec r = none := by
          obtain ⟨r, hr, hnone⟩ := hfail
          rcases List.mem_cons.mp hr with rfl | hmem
          · exact absurd hnone (by simp [tileImg, h64, hdec])
          · exact ⟨r, hmem, hnone⟩
        obtain ⟨e, w', heq, hfiles⟩ :=
          ih { canvas with composites := canvas.composites ++ [(img, rect.left * 2, rect.top * 2)] }
             { w with scrolls := w.scrolls ++ [(rect.left, rect.top)] } hrest
        exact ⟨e, w', by simp only [h64, hdec]; exact heq, hfiles⟩

theorem screenshot_png_fixSheet {α : Type} (b : Browser) (dec : ImgDecoder)
    (func : CanvasState → World → Except Err α × World) (w : World)
    (hfunc : ∀ c w', ((func c w').2).fixSheet = w'.fixSheet) :
    (screenshot_png b dec func w).2.fixSheet
      = !(isOk (screenshot_png b dec func w).1) := by
  simp only [screenshot_png]
  cases hcomp : composite_tiles b dec (iter_rects b.docW b.docH b.vpW b.vpH)
      { width := b.docW * 2, height := b.docH * 2, composites := [] }
      (scrollbars_hide w) with
  | mk res w2 =>
    have hw2 : w2.fixSheet = true := by
      have h := composite_tiles_fixSheet b dec (iter_rects b.docW b.docH b.vpW b.vpH)
        { width := b.docW * 2, height := b.docH * 2, composites := [] } (scrollbars_hide w)
      rw [hcomp] at h
      simpa [scrollbars_hide] using h
    cases res with
    | error e => simp [isOk, hw2]
    | ok canvas =>
      cases hf : func canvas w2 with
      | mk res3 w3 =>
        have hw3 : w3.fixSheet = true := by
          have h3 := hfunc canvas w2
          rw [hf] at h3
          rw [h3, hw2]
        cases res3 with
        | error e => simp [hf, isOk, hw3]
        | ok ret => simp [hf, scrollbars_restore, hw3, isOk]

theorem screenshot_png_fail {α : Type} (b : Browser) (dec : ImgDecoder)
    (func : CanvasState → World → Except Err α × World) (w : World)
    (hfail : ∃ r ∈ iter_rects b.docW b.docH b.vpW b.vpH, tileImg b dec r = none) :
    ∃ e w', screenshot_png b dec func w = (Except.error e, w') ∧
      w'.files = w.files := by
  obtain ⟨e, w', heq, hfiles⟩ := composite_tiles_fail b dec
    (iter_rects b.docW b.docH b.vpW b.vpH)
    { width := b.docW * 2, height := b.docH * 2, composites := [] }
    (scrollbars_hide w) hfail
  refine ⟨e, w', ?_, by simpa [scrollbars_hide] using hfiles⟩
  simp only [screenshot_png]
  rw [heq]

theorem get_png_ok (b : Browser) (dec : ImgDecoder) (enc : ImgEncoder)
    (w w' : World) (bytes : List Nat)
    (h : get_screenshot_as_png b dec enc w = (Except.ok bytes, w')) :
    ∃ canvas : CanvasState, bytes = enc canvas ∧
      canvas.width = b.docW * 2 ∧ canvas.height = b.docH * 2 := by
  simp only [get_screenshot_as_png, screenshot_png] at h
  cases hcomp : composite_tiles b dec (iter_rects b.docW b.docH b.vpW b.vpH)
      { width := b.docW * 2, height := b.docH * 2, composites := [] }
      (scrollbars_hide w) with
  | mk res w2 =>
    rw [hcomp] at h
    cases res with
    | error e => simp at h
    | ok canvas =>
      obtain ⟨hW, hH⟩ := composite_tiles_dims b dec _ _ _ _ _ hcomp
      refine ⟨canvas, ?_, hW, hH⟩
      cases hres : scrollbars_restore w2 with
      | error e => simp [hres] at h
      | ok w4 =>
        simp only [hres, Prod.mk.injEq, Except.ok.injEq] at h
        exact h.1.symm

theorem prepare_page_loop_spec (max : Int) :
    ∀ (l : List Rect) (w : World) (count : Int),
      (prepare_page_loop max l w count).1.scrolls.length
          = w.scrolls.length + min (max - count).toNat l.length ∧
      (prepare_page_loop max l w count).2 = count + l.length := by
  intro l
  induction l with
  | nil => intro w count; simp [prepare_page_loop]
  | cons rect rest ih =>
    intro w count
    rw [prepare_page_loop]
    by_cases hc : count < max
    · simp only [if_pos hc]
      obtain ⟨h1, h2⟩ := ih { w with scrolls := w.scrolls ++ [(rect.left, rect.top)] } (count + 1)
      refine ⟨?_, ?_⟩
      · rw [h1]; simp; omega
      · rw [h2]; simp; omega
    · simp only [if_neg hc]
      obtain ⟨h1, h2⟩ := ih w (count + 1)
      refine ⟨?_, ?_⟩
      · rw [h1]; simp; omega
      · rw [h2]; simp; omega

/-! ### Claim theorems -/

/-- Claim C4, counterexample: for document 4×3 and viewport 8×6
(document ≤ viewport, all positive) the tiler yields exactly one rect,
but that rect is `(-4, -3, 4, 3)` — the clamp-and-shift rule pushes its
origin to negative coordinates — not `(0, 0, 4, 3)` as the claim
states. -/
theorem iter_rects_small_doc_counterexample :
    iter_rects 4 3 8 6 = [{ left := -4, top := -3, right := 4, bottom := 3 }] ∧
    iter_rects 4 3 8 6 ≠ [{ left := 0, top := 0, right := 4, bottom := 3 }] := by
  decide

/-- Claim C4 (amended): for every document ≤ viewport (both positive)
the tiler yields exactly one rect, namely
`(docW - vpW, docH - vpH, docW, docH)` — a full-viewport rect anchored
at the bottom-right of the document, which equals
`(0, 0, docW, docH)` precisely when the sizes agree; in particular
document 800×600 with viewport 800×600 yields exactly
`[(0, 0, 800, 600)]`. -/
theorem iter_rects_small_doc (docW docH vpW vpH : Int)
    (hw0 : 0 < docW) (hh0 : 0 < docH) (hw : docW ≤ vpW) (hh : docH ≤ vpH) :
    iter_rects docW docH vpW vpH =
      [{ left := docW - vpW, top := docH - vpH, right := docW, bottom := docH }] ∧
    iter_rects 800 600 800 600 =
      [{ left := 0, top := 0, right := 800, bottom := 600 }] := by
  refine ⟨?_, by decide⟩
  rw [iter_rects, spans_single docH vpH hh0 hh, spans_single docW vpW hw0 hw]
  rfl

/-- Witness for `iter_rects_small_doc` at document 4×3, viewport 8×6. -/
theorem iter_rects_small_doc_witness :
    iter_rects 4 3 8 6 =
      [{ left := 4 - 8, top := 3 - 6, right := 4, bottom := 3 }] ∧
    iter_rects 800 600 800 600 =
      [{ left := 0, top := 0, right := 800, bottom := 600 }] :=
  iter_rects_small_doc 4 3 8 6 (by decide) (by decide) (by decide) (by decide)

/-- Claim C5, counterexample: for document 4×3 and viewport 8×6 the
document is smaller than the viewport in both dimensions, yet the
yielded rect is not clamped to the document size: its dimensions are
8×6 (the full viewport), not 4×3. -/
theorem rect_dims_counterexample :
    (iter_rects 4 3 8 6).map (fun r => (r.right - r.left, r.bottom - r.top)) =
      [(8, 6)] ∧
    ((8 : Int), (6 : Int)) ≠ ((4 : Int), (3 : Int)) := by decide

/-- Claim C5 (amended): for every document size and positive viewport,
every yielded rect has width exactly `vpW` and height exactly `vpH`,
with no exception: when the document is smaller than the viewport the
rect keeps full viewport dimensions and its origin is shifted (to
negative coordinates) rather than clamped to the document size. -/
theorem rect_dims_viewport (docW docH vpW vpH : Int)
    (hw : 0 < vpW) (hh : 0 < vpH) :
    ∀ r ∈ iter_rects docW docH vpW vpH,
      r.right - r.left = vpW ∧ r.bottom - r.top = vpH := by
  intro r hr
  obtain ⟨tb, htb, lr, hlr, rfl⟩ := (mem_iter_rects docW docH vpW vpH r).mp hr
  exact ⟨spans_width docW vpW hw lr hlr, spans_width docH vpH hh tb htb⟩

/-- Witness for `rect_dims_viewport`: the second tile of a 10×13
document under an 8×6 viewport measures exactly 8×6. -/
theorem rect_dims_viewport_witness :
    ({ left := 2, top := 0, right := 10, bottom := 6 } : Rect).right -
        ({ left := 2, top := 0, right := 10, bottom := 6 } : Rect).left = 8 ∧
    ({ left := 2, top := 0, right := 10, bottom := 6 } : Rect).bottom -
        ({ left := 2, top := 0, right := 10, bottom := 6 } : Rect).top = 6 :=
  rect_dims_viewport 10 13 8 6 (by decide) (by decide)
    { left := 2, top := 0, right := 10, bottom := 6 } (by decide)

/-- Claim C6: for every document size and positive viewport, every
integer point `(x, y)` with `0 ≤ x < docW` and `0 ≤ y < docH` lies
inside at least one yielded rect — the union of the rects covers the
document with no gaps (and a zero document dimension leaves nothing to
cover). -/
theorem iter_rects_cover (docW docH vpW vpH : Int)
    (hw : 0 < vpW) (hh : 0 < vpH) (x y : Int)
    (hx0 : 0 ≤ x) (hx : x < docW) (hy0 : 0 ≤ y) (hy : y < docH) :
    ∃ r ∈ iter_rects docW docH vpW vpH,
      r.left ≤ x ∧ x < r.right ∧ r.top ≤ y ∧ y < r.bottom := by
  obtain ⟨lr, hlr, hx1, hx2⟩ := spans_cover docW vpW hw x hx0 hx
  obtain ⟨tb, htb, hy1, hy2⟩ := spans_cover docH vpH hh y hy0 hy
  exact ⟨{ left := lr.1, top := tb.1, right := lr.2, bottom := tb.2 },
    (mem_iter_rects docW docH vpW vpH _).mpr ⟨tb, htb, lr, hlr, rfl⟩,
    hx1, hx2, hy1, hy2⟩

/-- Witness for `iter_rects_cover`: point (5, 7) of the 800×600
document is covered. -/
theorem iter_rects_cover_witness :
    ∃ r ∈ iter_rects 800 600 800 600,
      r.left ≤ 5 ∧ 5 < r.right ∧ r.top ≤ 7 ∧ 7 < r.bottom :=
  iter_rects_cover 800 600 800 600 (by decide) (by decide) 5 7
    (by decide) (by decide) (by decide) (by decide)

/-- Claim C10: with both viewport dimensions at least 1, both tiler
loops terminate — with any fuel beyond the document extent the
fuel-indexed loop completes and returns exactly the finite span
sequences from which `iter_rects` is built; with a zero viewport step
and a positive document extent the loop makes no progress and never
completes, whatever the fuel. -/
theorem tiler_termination :
    (∀ docW docH vpW vpH : Int, 1 ≤ vpW → 1 ≤ vpH → ∀ fuel : Nat,
        docH.toNat < fuel → docW.toNat < fuel →
        spansFuel docH vpH fuel 0 = some (spans docH vpH) ∧
        spansFuel docW vpW fuel 0 = some (spans docW vpW)) ∧
    (∀ size : Int, 0 < size → ∀ fuel : Nat, spansFuel size 0 fuel 0 = none) := by
  constructor
  · intro docW docH vpW vpH hw hh fuel hH hW
    exact ⟨spansFuel_eq_spans docH vpH (by omega) fuel hH,
           spansFuel_eq_spans docW vpW (by omega) fuel hW⟩
  · intro size hsize fuel
    exact spansFuel_zero_step size fuel 0 hsize

/-- Witness for `tiler_termination`: a 2×2 document with a 1×1 viewport
terminates with fuel 3, while a zero viewport step over a document of
extent 5 never completes (shown at fuel 9). -/
theorem tiler_termination_witness :
    (spansFuel 2 1 3 0 = some (spans 2 1) ∧
     spansFuel 2 1 3 0 = some (spans 2 1)) ∧
    spansFuel 5 0 9 0 = none :=
  ⟨tiler_termination.1 2 2 1 1 (by decide) (by decide) 3 (by decide) (by decide),
   tiler_termination.2 5 (by decide) 9⟩

/-- Claim C1, counterexample: capturing `badTileBrowser` under the
concrete image library aborts on tile decode, and after the aborted
`get_screenshot_as_file` the scrollbar override is still attached to
the document: `__screenshot_png` has no `try/finally`, so
`__scrollbars_restore` does not run on the error path. -/
theorem restore_skipped_on_error :
    (get_screenshot_as_file badTileBrowser dimDec "shot.png" world0).1
        = Except.error Err.imgError ∧
    (get_screenshot_as_file badTileBrowser dimDec "shot.png" world0).2.fixSheet
        = true := by
  decide

/-- Claim C1 (amended): for all three capture forms the scrollbar
override is removed exactly on the success path: after a capture that
returns normally the override is gone, while after a capture aborted by
any error (tile decode failure included) the override is still
attached, because `restore()` is not run on the failure path. -/
theorem scrollbars_restored_iff_success (b : Browser) (dec : ImgDecoder)
    (enc : ImgEncoder) (filename : String) (w : World)
    (hw : 0 < b.vpW) (hh : 0 < b.vpH) :
    (get_screenshot_as_png b dec enc w).2.fixSheet
        = !(isOk (get_screenshot_as_png b dec enc w).1) ∧
    (get_screenshot_as_base64 b dec enc w).2.fixSheet
        = !(isOk (get_screenshot_as_base64 b dec enc w).1) ∧
    (get_screenshot_as_file b dec filename w).2.fixSheet
        = !(isOk (get_screenshot_as_file b dec filename w).1) := by
  refine ⟨?_, ?_, ?_⟩
  · exact screenshot_png_fixSheet b dec _ w (fun c w' => rfl)
  · refine screenshot_png_fixSheet b dec _ w (fun c w' => ?_)
    cases pyB64Decode (enc c) <;> rfl
  · exact screenshot_png_fixSheet b dec _ w (fun c w' => rfl)

/-- Witness for `scrollbars_restored_iff_success` on a successful 1×1
capture. -/
theorem scrollbars_restored_iff_success_witness :
    (get_screenshot_as_png tinyBrowser dimDec dimEnc world0).2.fixSheet
        = !(isOk (get_screenshot_as_png tinyBrowser dimDec dimEnc world0).1) ∧
    (get_screenshot_as_base64 tinyBrowser dimDec dimEnc world0).2.fixSheet
        = !(isOk (get_screenshot_as_base64 tinyBrowser dimDec dimEnc world0).1) ∧
    (get_screenshot_as_file tinyBrowser dimDec "shot.png" world0).2.fixSheet
        = !(isOk (get_screenshot_as_file tinyBrowser dimDec "shot.png" world0).1) :=
  scrollbars_restored_iff_success tinyBrowser dimDec dimEnc "shot.png" world0
    (by decide) (by decide)

/-- Claim C2, counterexample: calling `restore()` when the override is
absent is not a no-op: `getElementById` returns `null`,
`removeChild(null)` throws, and the driver surfaces a script error. -/
theorem restore_absent_raises :
    scrollbars_restore { fixSheet := false, scrolls := [], files := [] }
      = Except.error Err.jsError := by decide

/-- Claim C2 (amended): `restore()` is not idempotent: immediately
after a successful `restore()` has removed the override, a second
`restore()` raises a script error instead of silently doing nothing. -/
theorem restore_twice_raises (w w' : World)
    (h : scrollbars_restore w = Except.ok w') :
    scrollbars_restore w' = Except.error Err.jsError := by
  unfold scrollbars_restore at h ⊢
  by_cases hf : w.fixSheet
  · simp only [if_pos hf] at h
    obtain rfl := Except.ok.inj h
    simp
  · simp [hf] at h

/-- Witness for `restore_twice_raises`: restoring twice from a world
with the override attached. -/
theorem restore_twice_raises_witness :
    scrollbars_restore { fixSheet := false, scrolls := [(1, 2)], files := ["a.png"] }
      = Except.error Err.jsError :=
  restore_twice_raises
    { fixSheet := true, scrolls := [(1, 2)], files := ["a.png"] }
    { fixSheet := false, scrolls := [(1, 2)], files := ["a.png"] } rfl

/-- Claim C3 is right and the code is wrong (code bug):
`get_screenshot_as_base64` applies `base64.b64decode` — not
`b64encode` — to the PNG blob, contradicting its own docstring
("Returns: A base64 encoded PNG image").  With the external encoder
producing the PNG blob `AAAA` (bytes [65, 65, 65, 65]) the capture
succeeds, `get_screenshot_as_png` returns those PNG bytes, while
`get_screenshot_as_base64` returns their base64 *decoding* [0, 0, 0];
base64-decoding that return value yields [] — not the PNG byte string,
so the round trip the claim demands fails. -/
theorem base64_output_is_decoded_blob :
    (get_screenshot_as_png tinyBrowser dimDec (fun _ => [65, 65, 65, 65]) world0).1
        = Except.ok [65, 65, 65, 65] ∧
    (get_screenshot_as_base64 tinyBrowser dimDec (fun _ => [65, 65, 65, 65]) world0).1
        = Except.ok [0, 0, 0] ∧
    pyB64Decode [0, 0, 0] = Except.ok [] ∧
    (Except.ok ([] : List Nat) : Except Err (List Nat))
        ≠ Except.ok [65, 65, 65, 65] := by decide

/-- Claim C7: if any tile of the capture sequence fails to decode, the
whole operation aborts: all three output forms return an error (no
partial canvas reaches a terminal conversion) and
`get_screenshot_as_file` writes no file. -/
theorem tile_decode_failure_aborts (b : Browser) (dec : ImgDecoder)
    (enc : ImgEncoder) (filename : String) (w : World)
    (hw : 0 < b.vpW) (hh : 0 < b.vpH)
    (hfail : ∃ r ∈ iter_rects b.docW b.docH b.vpW b.vpH, tileImg b dec r = none) :
    isOk (get_screenshot_as_file b dec filename w).1 = false ∧
    (get_screenshot_as_file b dec filename w).2.files = w.files ∧
    isOk (get_screenshot_as_png b dec enc w).1 = false ∧
    isOk (get_screenshot_as_base64 b dec enc w).1 = false := by
  obtain ⟨e1, w1, h1, hf1⟩ := screenshot_png_fail b dec
    (fun _ w' => (Except.ok true, { w' with files := w'.files ++ [filename] })) w hfail
  obtain ⟨e2, w2, h2, _⟩ := screenshot_png_fail b dec
    (fun canvas w' => (Except.ok (enc canvas), w')) w hfail
  obtain ⟨e3, w3, h3, _⟩ := screenshot_png_fail b dec
    (fun canvas w' =>
      match pyB64Decode (enc canvas) with
      | Except.ok s => (Except.ok s, w')
      | Except.error e => (Except.error e, w')) w hfail
  refine ⟨?_, ?_, ?_, ?_⟩
  · simp [get_screenshot_as_file, h1, isOk]
  · simp [get_screenshot_as_file, h1, hf1]
  · simp [get_screenshot_as_png, h2, isOk]
  · simp [get_screenshot_as_base64, h3, isOk]

/-- Witness for `tile_decode_failure_aborts`: the third of six tiles of
`sixTileBrowser` fails to decode; nothing is written and every output
form errors. -/
theorem tile_decode_failure_aborts_witness :
    isOk (get_screenshot_as_file sixTileBrowser dimDec "shot.png" world0).1 = false ∧
    (get_screenshot_as_file sixTileBrowser dimDec "shot.png" world0).2.files
        = world0.files ∧
    isOk (get_screenshot_as_png sixTileBrowser dimDec dimEnc world0).1 = false ∧
    isOk (get_screenshot_as_base64 sixTileBrowser dimDec dimEnc world0).1 = false :=
  tile_decode_failure_aborts sixTileBrowser dimDec dimEnc "shot.png" world0
    (by decide) (by decide) (by decide)

/-- Claim C8: the composited canvas is allocated at exactly
`(docW * 2, docH * 2)`; consequently, whenever the image library's
decoder inverts its encoder on dimensions, decoding the bytes returned
by a successful `get_screenshot_as_png` yields an image of exactly
`(docW * 2, docH * 2)` pixels. -/
theorem canvas_dims_doubled (b : Browser) (dec : ImgDecoder) (enc : ImgEncoder)
    (w w' : World) (bytes : List Nat)
    (hw : 0 < b.vpW) (hh : 0 < b.vpH)
    (hdec : ∀ c : CanvasState, dec (enc c) = some { width := c.width, height := c.height })
    (hok : get_screenshot_as_png b dec enc w = (Except.ok bytes, w')) :
    dec bytes = some { width := b.docW * 2, height := b.docH * 2 } := by
  obtain ⟨canvas, hbytes, hW, hH⟩ := get_png_ok b dec enc w w' bytes hok
  rw [hbytes, hdec canvas]
  simp [hW, hH]

/-- Witness for `canvas_dims_doubled`: the 1×1 capture returns the blob
[4, 4], which decodes to a 2×2 image. -/
theorem canvas_dims_doubled_witness :
    dimDec [4, 4] = some { width := 2, height := 2 } :=
  canvas_dims_doubled tinyBrowser dimDec dimEnc world0
    { fixSheet := false, scrolls := [(0, 0)], files := [] } [4, 4]
    (by decide) (by decide)
    (fun c => by simp [dimEnc, dimDec, intDec_intEnc])
    (by decide)

/-- Claim C9: `prepare_page(max)` performs exactly
`min(max, number of rects)` scroll operations while its loop counter
still visits (and counts) every rect past the ceiling; the model raises
no error — `prepare_page` is a total function into `World`. -/
theorem prepare_page_scroll_count (b : Browser) (max : Int) (w : World)
    (hw : 0 < b.vpW) (hh : 0 < b.vpH) :
    (prepare_page b max w).scrolls.length
        = w.scrolls.length
          + min max.toNat (iter_rects b.docW b.docH b.vpW b.vpH).length ∧
    (prepare_page_loop max (iter_rects b.docW b.docH b.vpW b.vpH) w 0).2
        = ((iter_rects b.docW b.docH b.vpW b.vpH).length : Int) := by
  obtain ⟨h1, h2⟩ := prepare_page_loop_spec max (iter_rects b.docW b.docH b.vpW b.vpH) w 0
  constructor
  · rw [prepare_page, h1]; simp
  · rw [h2]; simp

/-- Witness for `prepare_page_scroll_count`: five rects with a ceiling
of two scrolls — exactly two scrolls happen and all five rects are
counted. -/
theorem prepare_page_scroll_count_witness :
    (prepare_page fiveRectBrowser 2 world0).scrolls.length
        = world0.scrolls.length
          + min (Int.toNat 2)
              (iter_rects fiveRectBrowser.docW fiveRectBrowser.docH
                fiveRectBrowser.vpW fiveRectBrowser.vpH).length ∧
    (prepare_page_loop 2
        (iter_rects fiveRectBrowser.docW fiveRectBrowser.docH
          fiveRectBrowser.vpW fiveRectBrowser.vpH) world0 0).2
        = ((iter_rects fiveRectBrowser.docW fiveRectBrowser.docH
            fiveRectBrowser.vpW fiveRectBrowser.vpH).length : Int) :=
  prepare_page_scroll_count fiveRectBrowser 2 world0 (by decide) (by decide)

example :
    (prepare_page fiveRectBrowser 2 world0).scrolls = [(0, 0), (0, 6)] := by decide

example :
    (iter_rects fiveRectBrowser.docW fiveRectBrowser.docH
      fiveRectBrowser.vpW fiveRectBrowser.vpH).length = 5 := by decide

end ChromeScreen
